import Mathlib

/-!
Shallow embedding of the channel library in `include/channel.hpp` (namespace `chan`).

The channel is modelled as a record of the fields the C++ class `channel<T>` keeps
under its mutex: the FIFO buffer `queue`, the `is_closed_` flag, the
`receivers_` and `senders_` counters, the monotone `wait_id` allocator, the two
wait lists of `(id, notifier)` pairs, and `capacity_`.  Notifiers are callbacks
bound to a select session; since they mutate the session, they are modelled as
state transformers over an external state type `sigma`.  The `id -> iterator`
index maps of the source are a lookup optimisation over the wait lists and are
represented by searching the lists by id.  Mutex operations, condition-variable
signalling and the NDEBUG counters have no effect on the shared state visible in
this sequential model and are dropped; a condition-variable wait whose predicate
is false with no other thread to change it blocks forever, which the blocking
operations model by returning `none`.
-/

namespace chan

/-- Receive-side notifier, the C++ `std::function<bool(const T & msg, bool is_closed)>`:
given the message and the closed flag it returns whether it accepted the
rendezvous, together with the updated external (select-session) state. -/
abbrev RecvNotifier (σ T : Type) := T → Bool → σ → Bool × σ

/-- Send-side notifier, the C++ `std::function<bool(T & msg, bool is_closed)>`:
the callee either produces a value to enqueue (writes `msg` and returns true,
modelled as `some v`) or declines (`none`), together with the updated external
state.  For a call with `is_closed = true` every caller in the source discards
both the return value and `msg`. -/
abbrev SendNotifier (σ T : Type) := Bool → σ → Option T × σ

/-- The state of `chan::channel<T>` guarded by its mutex. -/
structure Channel (σ T : Type) where
  queue : List T
  is_closed_ : Bool
  receivers_ : Nat
  senders_ : Nat
  wait_id : Nat
  recv_wait_list : List (Nat × RecvNotifier σ T)
  send_wait_list : List (Nat × SendNotifier σ T)
  capacity_ : Nat

/-- `std::numeric_limits<int>::max()`, the default `capacity_`. -/
def intMax : Nat := 2147483647

/-- The default constructor `channel()`: empty queue, open, zero counters,
`wait_id` 0, empty wait lists, capacity `std::numeric_limits<int>::max()`. -/
def channelNew (σ T : Type) : Channel σ T :=
  { queue := []
    is_closed_ := false
    receivers_ := 0
    senders_ := 0
    wait_id := 0
    recv_wait_list := []
    send_wait_list := []
    capacity_ := intMax }

/-- The constructor `channel(size_t capacity)`: delegates to `channel()` and
then overwrites `capacity_`. -/
def channelWithCapacity (σ T : Type) (cap : Nat) : Channel σ T :=
  { channelNew σ T with capacity_ := cap }

/-- `channel::capacity()`. -/
def capacity {σ T : Type} (c : Channel σ T) : Nat := c.capacity_

/-- `channel::size()`. -/
def size {σ T : Type} (c : Channel σ T) : Nat := c.queue.length

/-- `channel::is_closed()`: `queue.size() == 0 && is_closed_`. -/
def is_closed {σ T : Type} (c : Channel σ T) : Bool :=
  c.queue.length == 0 && c.is_closed_

/-- `detail::__recv_or_notify`: under the lock, if the queue is non-empty pop
the front and offer it to the notifier (pushing it back on the front when the
notifier rejects); otherwise if the channel is closed offer a
default-constructed `T` with `is_closed = true` (the source then also pushes
`msg` back on rejection); in both cases return 0.  Otherwise allocate a fresh
nonzero wait id and append the notifier to the receive wait list. -/
def __recv_or_notify {σ T : Type} [Inhabited T] (c : Channel σ T)
    (notifier : RecvNotifier σ T) (s : σ) : Nat × Channel σ T × σ :=
  match c.queue with
  | msg :: rest =>
    let c1 := { c with queue := rest }
    match notifier msg false s with
    | (true, s1) => (0, c1, s1)
    | (false, s1) => (0, { c1 with queue := msg :: c1.queue }, s1)
  | [] =>
    if c.is_closed_ then
      match notifier (default : T) true s with
      | (true, s1) => (0, c, s1)
      | (false, s1) => (0, { c with queue := (default : T) :: c.queue }, s1)
    else
      let id := c.wait_id + 1
      (id, { c with wait_id := id,
                    recv_wait_list := c.recv_wait_list ++ [(id, notifier)] }, s)

/-- `detail::__send_or_notify`: on a closed channel invoke the notifier with
`is_closed = true`, discard its result and return 0.  If the queue has room
(`size < capacity_ + receivers_`) ask the notifier for a value; enqueue it at
the back when produced; return 0 either way.  Otherwise allocate a fresh
nonzero wait id and append the notifier to the send wait list. -/
def __send_or_notify {σ T : Type} (c : Channel σ T)
    (notifier : SendNotifier σ T) (s : σ) : Nat × Channel σ T × σ :=
  if c.is_closed_ then
    (0, c, (notifier true s).2)
  else if c.queue.length < c.capacity_ + c.receivers_ then
    match notifier false s with
    | (none, s1) => (0, c, s1)
    | (some msg, s1) => (0, { c with queue := c.queue ++ [msg] }, s1)
  else
    let id := c.wait_id + 1
    (id, { c with wait_id := id,
                  send_wait_list := c.send_wait_list ++ [(id, notifier)] }, s)

/-- `detail::__unnotify`: remove the entry with the given id from whichever
wait list holds it (the source finds it through the id index and erases that
iterator, i.e. the single entry carrying the id); returns whether a removal
happened. -/
def __unnotify {σ T : Type} (c : Channel σ T) (id : Nat) : Bool × Channel σ T :=
  if c.recv_wait_list.any (fun p => p.1 == id) then
    (true, { c with recv_wait_list := c.recv_wait_list.eraseP (fun p => p.1 == id) })
  else if c.send_wait_list.any (fun p => p.1 == id) then
    (true, { c with send_wait_list := c.send_wait_list.eraseP (fun p => p.1 == id) })
  else
    (false, c)

/-- The receive-wait-list walk inside `channel::send`: pop entries from the
front, offering `msg` with `is_closed = false` to each, until one accepts or
the list is exhausted.  Returns whether one accepted, the remaining list and
the final external state. -/
def notifyRecvWaiters {σ T : Type} (msg : T) :
    List (Nat × RecvNotifier σ T) → σ → Bool × List (Nat × RecvNotifier σ T) × σ
  | [], s => (false, [], s)
  | (_, n) :: rest, s =>
    match n msg false s with
    | (true, s1) => (true, rest, s1)
    | (false, s1) => notifyRecvWaiters msg rest s1

/-- The send-wait-list walk inside `channel::recv`: pop entries from the front,
invoking each with `is_closed = false`, until one produces a value or the list
is exhausted. -/
def notifySendWaiters {σ T : Type} :
    List (Nat × SendNotifier σ T) → σ → Option T × List (Nat × SendNotifier σ T) × σ
  | [], s => (none, [], s)
  | (_, n) :: rest, s =>
    match n false s with
    | (some v, s1) => (some v, rest, s1)
    | (none, s1) => notifySendWaiters rest s1

/-- `channel::send<wait>`: fail on a closed channel; otherwise walk the receive
wait list (waiters get first priority) and succeed on the first acceptance; if
none accepted and the queue is at or above `capacity_ + receivers_`, fail when
not waiting, or block (`none`: no other thread can make the condition-variable
predicate true in this sequential model); otherwise push the message on the
back of the queue.  The `senders_` counter is incremented on entry and
decremented before every return, so it is unchanged in every returned state. -/
def send {σ T : Type} (wait : Bool) (c : Channel σ T) (msg : T) (s : σ) :
    Option (Bool × Channel σ T × σ) :=
  if c.is_closed_ then
    some (false, c, s)
  else
    match notifyRecvWaiters msg c.recv_wait_list s with
    | (accepted, rest, s1) =>
      let c1 := { c with recv_wait_list := rest }
      if accepted then
        some (true, c1, s1)
      else if c1.capacity_ + c1.receivers_ ≤ c1.queue.length then
        if wait then none else some (false, c1, s1)
      else
        some (true, { c1 with queue := c1.queue ++ [msg] }, s1)

/-- `channel::recv<wait>`: walk the send wait list (waiters get first priority)
and succeed with the first produced value; otherwise, when waiting on an empty
open queue, block forever in this sequential model (`none`); otherwise pop the
front of the queue if non-empty, else return false leaving the out slot `msg`
untouched.  The returned `T` is the content of the out slot after the call; the
`receivers_` counter is net unchanged on every return. -/
def recv {σ T : Type} (wait : Bool) (c : Channel σ T) (msg : T) (s : σ) :
    Option (Bool × T × Channel σ T × σ) :=
  match notifySendWaiters c.send_wait_list s with
  | (some v, rest, s1) => some (true, v, { c with send_wait_list := rest }, s1)
  | (none, rest, s1) =>
    let c1 := { c with send_wait_list := rest }
    if wait && c1.queue.isEmpty && !c1.is_closed_ then
      none
    else
      match c1.queue with
      | v :: restq => some (true, v, { c1 with queue := restq }, s1)
      | [] => some (false, msg, c1, s1)

/-- `channel::empty_recv_wait_list`: invoke every receive notifier with a
default-constructed value and `is_closed = true`, front to back, discarding the
results. -/
def emptyRecvWaitList {σ T : Type} (zero : T) :
    List (Nat × RecvNotifier σ T) → σ → σ
  | [], s => s
  | (_, n) :: rest, s => emptyRecvWaitList zero rest (n zero true s).2

/-- `channel::empty_send_wait_list`: invoke every send notifier with
`is_closed = true`, front to back, discarding the results. -/
def emptySendWaitList {σ T : Type} :
    List (Nat × SendNotifier σ T) → σ → σ
  | [], s => s
  | (_, n) :: rest, s => emptySendWaitList rest (n true s).2

/-- `channel::close()`: idempotent; on the first call set `is_closed_`, then
empty both wait lists, notifying every entry with `closed = true`. -/
def close {σ T : Type} [Inhabited T] (c : Channel σ T) (s : σ) : Channel σ T × σ :=
  if c.is_closed_ then
    (c, s)
  else
    let s1 := emptyRecvWaitList (default : T) c.recv_wait_list s
    let s2 := emptySendWaitList c.send_wait_list s1
    ({ c with is_closed_ := true, recv_wait_list := [], send_wait_list := [] }, s2)

/-- A `recv` on a channel with an empty queue and an empty send wait list that
does not block (because `wait` is false or the channel is closed) returns
`false`, leaves the out slot untouched and leaves the channel unchanged. -/
theorem recv_empty_no_senders {σ T : Type} (wait : Bool) (c : Channel σ T)
    (slot : T) (s : σ) (hq : c.queue = []) (hs : c.send_wait_list = [])
    (hw : wait = false ∨ c.is_closed_ = true) :
    recv wait c slot s = some (false, slot, c, s) := by
  obtain ⟨q, cl, rv, sd, wi, rl, sl, cap⟩ := c
  simp only at hq hs
  subst hq; subst hs
  rcases hw with hw | hw
  · subst hw
    simp [recv, notifySendWaiters]
  · simp only at hw
    subst hw
    simp [recv, notifySendWaiters]

/-- Claim C10: a default-constructed channel has capacity
`std::numeric_limits<int>::max() = 2147483647`. -/
theorem default_channel_capacity (σ T : Type) :
    capacity (channelNew σ T) = 2147483647 := rfl

/-- Claim C3: `close` sets the closed flag, and a `send` (blocking or not) on a
channel whose closed flag is set returns `false` and leaves the channel
unchanged — in particular nothing is enqueued into the buffer. -/
theorem send_after_close_fails {σ T : Type} [Inhabited T] :
    (∀ (c : Channel σ T) (s : σ), ((close c s).1).is_closed_ = true) ∧
    (∀ (wait : Bool) (c : Channel σ T) (v : T) (s : σ), c.is_closed_ = true →
      send wait c v s = some (false, c, s)) := by
  constructor
  · intro c s
    unfold close
    by_cases h : c.is_closed_ <;> simp [h]
  · intro wait c v s h
    unfold send
    simp [h]

/-- Claim C3 witness: sending 5 on a concrete closed channel returns false with
the channel unchanged. -/
theorem send_after_close_fails_witness :
    send true { channelNew Unit Nat with is_closed_ := true } 5 ()
      = some (false, { channelNew Unit Nat with is_closed_ := true }, ()) :=
  send_after_close_fails.2 true { channelNew Unit Nat with is_closed_ := true } 5 () rfl

/-- Claim C7: `is_closed` returns true exactly when the closed flag is set and
the buffer is empty, and after `close` on a channel with a non-empty buffer
`is_closed` is still false (the buffer is untouched by `close`). -/
theorem is_closed_iff_flag_and_drained {σ T : Type} [Inhabited T] :
    (∀ (c : Channel σ T), is_closed c = true ↔ (c.is_closed_ = true ∧ c.queue = [])) ∧
    (∀ (c : Channel σ T) (s : σ), c.queue ≠ [] →
      is_closed ((close c s).1) = false ∧ ((close c s).1).queue = c.queue) := by
  constructor
  · intro c
    simp [is_closed, List.length_eq_zero, and_comm]
  · intro c s hq
    unfold close
    by_cases h : c.is_closed_ <;>
      simp [h, is_closed, List.length_eq_zero, hq]

/-- Claim C7 witness: on a concrete channel holding one buffered value,
`is_closed` is false right after `close` and the buffer is intact. -/
theorem is_closed_iff_flag_and_drained_witness :
    is_closed ((close { channelNew Unit Nat with queue := [9] } ()).1) = false ∧
    ((close { channelNew Unit Nat with queue := [9] } ()).1).queue = [9] :=
  (is_closed_iff_flag_and_drained.2 { channelNew Unit Nat with queue := [9] } ()
    (by simp))

/-- Claim C2 (amended): a `recv` on a channel that is closed and drained (its
wait lists being empty, as `close` guarantees) returns `false`, leaves the out
slot exactly as it was before the call, and leaves the channel unchanged. -/
theorem recv_after_close_and_drain {σ T : Type} (wait : Bool) (c : Channel σ T)
    (slot : T) (s : σ) (hcl : c.is_closed_ = true) (hq : c.queue = [])
    (hs : c.send_wait_list = []) :
    recv wait c slot s = some (false, slot, c, s) :=
  recv_empty_no_senders wait c slot s hq hs (Or.inr hcl)

/-- Claim C2 witness: on a concrete closed and drained channel, `recv` returns
false with the slot and channel unchanged. -/
theorem recv_after_close_and_drain_witness :
    recv true { channelNew Unit Nat with is_closed_ := true } 7 ()
      = some (false, 7, { channelNew Unit Nat with is_closed_ := true }, ()) :=
  recv_after_close_and_drain true { channelNew Unit Nat with is_closed_ := true }
    7 () rfl rfl rfl

/-- Claim C2 counterexample: on a closed drained channel whose out slot
previously held 7, `recv` returns false with the slot still holding 7, which is
not the default value of the element type — the slot is not reset. -/
theorem recv_after_close_keeps_slot :
    (recv true { channelNew Unit Nat with is_closed_ := true } 7 ()).map
        (fun r => r.2.1) = some 7 ∧
    (7 : Nat) ≠ default := by
  constructor
  · rfl
  · decide

/-- Claim C9: a non-blocking `recv` on an open channel with an empty buffer and
an empty send wait list returns `false` without blocking, leaves the out slot
unmodified and the channel unchanged — and the channel is not closed, so the
false return does not indicate closure. -/
theorem try_recv_empty_open {σ T : Type} (c : Channel σ T) (slot : T) (s : σ)
    (hopen : c.is_closed_ = false) (hq : c.queue = [])
    (hs : c.send_wait_list = []) :
    recv false c slot s = some (false, slot, c, s) ∧ is_closed c = false := by
  refine ⟨recv_empty_no_senders false c slot s hq hs (Or.inl rfl), ?_⟩
  simp [is_closed, hopen]

/-- Claim C9 witness: a concrete open empty channel with slot 3. -/
theorem try_recv_empty_open_witness :
    recv false (channelNew Unit Nat) 3 () = some (false, 3, channelNew Unit Nat, ()) ∧
    is_closed (channelNew Unit Nat) = false :=
  try_recv_empty_open (channelNew Unit Nat) 3 () rfl rfl rfl

/-- Claim C8: each of `__recv_or_notify` and `__send_or_notify` returns 0
exactly when it handled the notifier synchronously (the queue or closed flag
made the channel ready on the receive side; the closed flag or buffer room on
the send side), in which case nothing is registered; otherwise it registers the
notifier at the back of the corresponding wait list under a freshly allocated
id `wait_id + 1`, returns that id, and that id is never 0. -/
theorem notify_zero_iff_synchronous {σ T : Type} [Inhabited T] :
    (∀ (c : Channel σ T) (n : RecvNotifier σ T) (s : σ),
      ((c.queue ≠ [] ∨ c.is_closed_ = true) →
        (__recv_or_notify c n s).1 = 0 ∧
        ((__recv_or_notify c n s).2.1).recv_wait_list = c.recv_wait_list) ∧
      ((c.queue = [] ∧ c.is_closed_ = false) →
        (__recv_or_notify c n s).1 = c.wait_id + 1 ∧
        (__recv_or_notify c n s).1 ≠ 0 ∧
        ((__recv_or_notify c n s).2.1).recv_wait_list
          = c.recv_wait_list ++ [(c.wait_id + 1, n)])) ∧
    (∀ (c : Channel σ T) (n : SendNotifier σ T) (s : σ),
      ((c.is_closed_ = true ∨ c.queue.length < c.capacity_ + c.receivers_) →
        (__send_or_notify c n s).1 = 0 ∧
        ((__send_or_notify c n s).2.1).send_wait_list = c.send_wait_list) ∧
      ((c.is_closed_ = false ∧ c.capacity_ + c.receivers_ ≤ c.queue.length) →
        (__send_or_notify c n s).1 = c.wait_id + 1 ∧
        (__send_or_notify c n s).1 ≠ 0 ∧
        ((__send_or_notify c n s).2.1).send_wait_list
          = c.send_wait_list ++ [(c.wait_id + 1, n)])) := by
  constructor
  · intro c n s
    constructor
    · intro h
      match hq : c.queue with
      | msg :: rest =>
        rcases hn : n msg false s with ⟨acc, s1⟩
        cases acc <;> simp [__recv_or_notify, hq, hn]
      | [] =>
        have hcl : c.is_closed_ = true := by
          rcases h with h | h
          · exact absurd hq h
          · exact h
        rcases hn : n (default : T) true s with ⟨acc, s1⟩
        cases acc <;> simp [__recv_or_notify, hq, hcl, hn]
    · rintro ⟨hq, hcl⟩
      simp [__recv_or_notify, hq, hcl]
  · intro c n s
    constructor
    · intro h
      rcases h with h | h
      · simp [__send_or_notify, h]
      · have hcl : c.is_closed_ = true ∨ c.is_closed_ = false := by
          cases c.is_closed_ <;> simp
        rcases hcl with hcl | hcl
        · simp [__send_or_notify, hcl]
        · rcases hn : n false s with ⟨v, s1⟩
          cases v <;> simp [__send_or_notify, hcl, h, hn]
    · rintro ⟨hcl, h⟩
      rw [__send_or_notify]
      simp [hcl, Nat.not_lt.mpr h]

/-- Claim C8 witness: on a concrete open empty channel the receive side
registers under id 1, and on a concrete channel with a buffered value the
receive side handles the notifier synchronously returning 0. -/
theorem notify_zero_iff_synchronous_witness :
    ((__recv_or_notify (channelNew (List Nat) Nat)
        (fun v _ st => (true, v :: st)) []).1 = 0 + 1 ∧
      (__recv_or_notify (channelNew (List Nat) Nat)
        (fun v _ st => (true, v :: st)) []).1 ≠ 0 ∧
      ((__recv_or_notify (channelNew (List Nat) Nat)
        (fun v _ st => (true, v :: st)) []).2.1).recv_wait_list
        = [] ++ [(0 + 1, fun v _ st => (true, v :: st))]) ∧
    ((__recv_or_notify { channelNew (List Nat) Nat with queue := [4] }
        (fun v _ st => (true, v :: st)) []).1 = 0 ∧
      ((__recv_or_notify { channelNew (List Nat) Nat with queue := [4] }
        (fun v _ st => (true, v :: st)) []).2.1).recv_wait_list = []) := by
  constructor
  · exact (notify_zero_iff_synchronous.1 (channelNew (List Nat) Nat)
      (fun v _ st => (true, v :: st)) []).2 ⟨rfl, rfl⟩
  · exact (notify_zero_iff_synchronous.1 { channelNew (List Nat) Nat with queue := [4] }
      (fun v _ st => (true, v :: st)) []).1 (Or.inl (by simp))

/-- The single-threaded driver for claim C1: a sequence of blocking `send`
calls, one per element of `vs`, collecting each boolean return; `none` when
some call blocks forever. -/
def sendSeq {σ T : Type} (c : Channel σ T) (vs : List T) (s : σ) :
    Option (List Bool × Channel σ T × σ) :=
  match vs with
  | [] => some ([], c, s)
  | v :: rest =>
    match send true c v s with
    | none => none
    | some (ok, c1, s1) =>
      match sendSeq c1 rest s1 with
      | none => none
      | some (oks, c2, s2) => some (ok :: oks, c2, s2)

/-- The single-threaded driver for claim C1: `n` blocking `recv` calls reusing
one out slot, collecting each boolean return with the slot content after the
call. -/
def recvSeq {σ T : Type} (c : Channel σ T) (n : Nat) (slot : T) (s : σ) :
    Option (List (Bool × T) × Channel σ T × σ) :=
  match n with
  | 0 => some ([], c, s)
  | Nat.succ k =>
    match recv true c slot s with
    | none => none
    | some (ok, v, c1, s1) =>
      match recvSeq c1 k v s1 with
      | none => none
      | some (res, c2, s2) => some ((ok, v) :: res, c2, s2)

/-- The claim C1 scenario: `send(v1) ... send(vn)` followed by `n` `recv`
calls, all on one channel from one thread. -/
def sendThenRecvAll {σ T : Type} (c : Channel σ T) (vs : List T) (slot : T)
    (s : σ) : Option (List Bool × List (Bool × T) × Channel σ T × σ) :=
  match sendSeq c vs s with
  | none => none
  | some (oks, c1, s1) =>
    match recvSeq c1 vs.length slot s1 with
    | none => none
    | some (res, c2, s2) => some (oks, res, c2, s2)

/-- A `send` on an open channel with an empty receive wait list and room in the
buffer appends the message at the back and returns true. -/
theorem send_open_with_room {σ T : Type} (wait : Bool) (c : Channel σ T)
    (v : T) (s : σ) (hopen : c.is_closed_ = false) (hr : c.recv_wait_list = [])
    (hlen : c.queue.length < c.capacity_ + c.receivers_) :
    send wait c v s = some (true, { c with queue := c.queue ++ [v] }, s) := by
  obtain ⟨q, cl, rv, sd, wi, rl, sl, cap⟩ := c
  simp only at hopen hr hlen
  subst hopen; subst hr
  simp [send, notifyRecvWaiters, Nat.not_le.mpr hlen]

/-- Sending the whole list `vs` into an open channel with an empty receive wait
list and enough room appends `vs` to the queue in order, every call returning
true. -/
theorem sendSeq_appends {σ T : Type} (c : Channel σ T) (vs : List T) (s : σ)
    (hopen : c.is_closed_ = false) (hr : c.recv_wait_list = [])
    (hcap : c.queue.length + vs.length ≤ c.capacity_ + c.receivers_) :
    sendSeq c vs s
      = some (List.replicate vs.length true, { c with queue := c.queue ++ vs }, s) := by
  induction vs generalizing c s with
  | nil => simp [sendSeq]
  | cons v rest ih =>
    have hlen : c.queue.length < c.capacity_ + c.receivers_ := by
      simp at hcap
      omega
    rw [sendSeq, send_open_with_room true c v s hopen hr hlen]
    dsimp only
    rw [ih { c with queue := c.queue ++ [v] } s hopen hr (by simp; simp at hcap; omega)]
    simp [List.replicate_succ]

/-- A `recv` on a channel with an empty send wait list and a non-empty queue
pops the head and returns it with true. -/
theorem recv_queue_ready {σ T : Type} (wait : Bool) (c : Channel σ T)
    (slot : T) (s : σ) (hs : c.send_wait_list = []) (v : T) (rest : List T)
    (hq : c.queue = v :: rest) :
    recv wait c slot s = some (true, v, { c with queue := rest }, s) := by
  obtain ⟨q, cl, rv, sd, wi, rl, sl, cap⟩ := c
  simp only at hs hq
  subst hs; subst hq
  cases wait <;> cases cl <;> simp [recv, notifySendWaiters]

/-- Receiving `vs.length` times from a channel whose queue is exactly `vs` and
whose send wait list is empty yields `vs` in order, every call returning true,
draining the queue. -/
theorem recvSeq_drains {σ T : Type} (c : Channel σ T) (vs : List T) (slot : T)
    (s : σ) (hs : c.send_wait_list = []) (hq : c.queue = vs) :
    recvSeq c vs.length slot s
      = some (vs.map (fun v => (true, v)), { c with queue := [] }, s) := by
  induction vs generalizing c slot s with
  | nil =>
    obtain ⟨q, cl, rv, sd, wi, rl, sl, cap⟩ := c
    simp only at hs hq
    subst hs; subst hq
    rfl
  | cons v rest ih =>
    obtain ⟨q, cl, rv, sd, wi, rl, sl, cap⟩ := c
    simp only at hs hq
    subst hs; subst hq
    have h1 := recv_queue_ready true
      (⟨v :: rest, cl, rv, sd, wi, rl, [], cap⟩ : Channel σ T) slot s rfl v rest rfl
    rw [List.length_cons, recvSeq, h1]
    dsimp only
    rw [ih (⟨rest, cl, rv, sd, wi, rl, [], cap⟩ : Channel σ T) v s rfl rfl]
    simp

/-- Claim C1 (amended): on an open channel whose buffer and wait lists are
empty and whose capacity is at least `vs.length`, sending `vs` and then
receiving `vs.length` times from a single thread makes every call return true
and yields the received sequence equal to the sent sequence, in order. -/
theorem send_then_recv_fifo {σ T : Type} (c : Channel σ T) (vs : List T)
    (slot : T) (s : σ) (hopen : c.is_closed_ = false) (hq : c.queue = [])
    (hr : c.recv_wait_list = []) (hsl : c.send_wait_list = [])
    (hcap : vs.length ≤ c.capacity_) :
    sendThenRecvAll c vs slot s
      = some (List.replicate vs.length true, vs.map (fun v => (true, v)), c, s) := by
  obtain ⟨q, cl, rv, sd, wi, rl, sl, cap⟩ := c
  simp only at hopen hq hr hsl hcap
  subst hopen; subst hq; subst hr; subst hsl
  have h1 := sendSeq_appends (⟨[], false, rv, sd, wi, [], [], cap⟩ : Channel σ T)
    vs s rfl rfl (by simp; omega)
  simp only [List.nil_append] at h1
  have h2 := recvSeq_drains (⟨vs, false, rv, sd, wi, [], [], cap⟩ : Channel σ T)
    vs slot s rfl rfl
  rw [sendThenRecvAll, h1]
  dsimp only
  rw [h2]

/-- Claim C1 witness: the scenario S1 on a fresh channel, sending 5, 6, 7 and
receiving them back in order. -/
theorem send_then_recv_fifo_witness :
    sendThenRecvAll (channelNew Unit Nat) [5, 6, 7] 0 ()
      = some (List.replicate 3 true, [5, 6, 7].map (fun v => (true, v)),
          channelNew Unit Nat, ()) :=
  send_then_recv_fifo (channelNew Unit Nat) [5, 6, 7] 0 () rfl rfl rfl rfl
    (by decide)

/-- Claim C1 counterexample: the claim quantifies over every open channel of
sufficient capacity, but a channel whose buffer already holds 99 is open with
capacity at least 1, and sending 5 then receiving once yields 99, not the sent
sequence. -/
theorem send_then_recv_fifo_prior_buffer :
    (sendThenRecvAll { channelNew Unit Nat with queue := [99] } [5] 0 ()).map
        (fun r => r.2.1) = some [(true, 99)] ∧
    [(true, (99 : Nat))] ≠ [5].map (fun v => (true, v)) ∧
    ({ channelNew Unit Nat with queue := [99] } : Channel Unit Nat).is_closed_ = false ∧
    1 ≤ capacity ({ channelNew Unit Nat with queue := [99] } : Channel Unit Nat) := by
  refine ⟨rfl, by decide, rfl, by decide⟩

/-- The state of a select session (`detail::selector`) shared by its
notifiers: the `completed` flag, the `selected_action` slot (actions are
identified by numeric labels), the receive-case output slot `dat` and the
closed-flag slot. -/
structure Session (T : Type) where
  completed : Bool
  selected_action : Option Nat
  dat : T
  closed_flag : Bool

/-- `selector::notify_recv`: under the session mutex, reject when some case has
already completed; otherwise record the received value in the output slot,
record the closed flag and the winning action, and mark the session
completed. -/
def notify_recv {T : Type} (aid : Nat) : RecvNotifier (Session T) T :=
  fun val is_cl st =>
    if st.completed then (false, st)
    else (true, { completed := true, selected_action := some aid,
                  dat := val, closed_flag := is_cl })

/-- `selector::notify_send`: under the session mutex, reject when some case has
already completed; otherwise record the closed flag and the winning action,
mark the session completed, and hand over the value `sen` held by the case
(the source writes `val = *sen` only when not closed, and every caller of a
closed notification discards the value). -/
def notify_send {T : Type} (aid : Nat) (sen : T) : SendNotifier (Session T) T :=
  fun is_cl st =>
    if st.completed then (none, st)
    else (some sen, { st with completed := true, selected_action := some aid,
                              closed_flag := is_cl })

/-- One notifier invocation arriving at a select session: a producer delivering
`val` to a receive case `aid`, or a consumer (or the closing party) firing a
send case `aid`, with the reported closed flag. -/
inductive SelEvent (T : Type) where
  | recvEv (aid : Nat) (val : T) (is_cl : Bool)
  | sendEv (aid : Nat) (sen : T) (is_cl : Bool)

/-- Apply one arriving notification to the session, returning whether the
notifier accepted the rendezvous. -/
def stepEvent {T : Type} : SelEvent T → Session T → Bool × Session T
  | SelEvent.recvEv aid val is_cl, st => notify_recv aid val is_cl st
  | SelEvent.sendEv aid sen is_cl, st =>
    let r := notify_send aid sen is_cl st
    (r.1.isSome, r.2)

/-- Run a serialized sequence of arriving notifications (the session mutex
serializes concurrent arrivals), counting how many were accepted. -/
def runEvents {T : Type} : List (SelEvent T) → Session T → Nat × Session T
  | [], st => (0, st)
  | e :: es, st =>
    let r := stepEvent e st
    let r2 := runEvents es r.2
    ((if r.1 then 1 else 0) + r2.1, r2.2)

/-- A notification arriving at a completed session is rejected and mutates
nothing. -/
theorem stepEvent_of_completed {T : Type} (e : SelEvent T) (st : Session T)
    (h : st.completed = true) : stepEvent e st = (false, st) := by
  cases e <;> simp [stepEvent, notify_recv, notify_send, h]

/-- A notification arriving at a not-yet-completed session is accepted and
completes the session. -/
theorem stepEvent_of_not_completed {T : Type} (e : SelEvent T) (st : Session T)
    (h : st.completed = false) :
    (stepEvent e st).1 = true ∧ ((stepEvent e st).2).completed = true := by
  cases e <;> simp [stepEvent, notify_recv, notify_send, h]

/-- No notification is accepted by a completed session, over any sequence. -/
theorem runEvents_of_completed {T : Type} (es : List (SelEvent T))
    (st : Session T) (h : st.completed = true) : runEvents es st = (0, st) := by
  induction es with
  | nil => rfl
  | cons e es ih => simp [runEvents, stepEvent_of_completed e st h, ih]

/-- Claim C4: the select session admits exactly one winner.  For any nonempty
serialized sequence of notifier arrivals (concurrent producers serialize on
the session mutex) starting from a fresh session, exactly one arrival is
accepted; an arrival at a completed session is rejected with the session
unchanged, so a losing receive case never writes its output slot; a rejected
receive notifier on a channel with a value available leaves the channel
entirely unchanged (the value is not consumed); and a send notifier of a
completed session never delivers a value through `__send_or_notify` (the queue
and session are unchanged). -/
theorem select_single_winner {T : Type} [Inhabited T] :
    (∀ (e : SelEvent T) (es : List (SelEvent T)) (st : Session T),
      st.completed = false → (runEvents (e :: es) st).1 = 1) ∧
    (∀ (e : SelEvent T) (st : Session T), st.completed = true →
      stepEvent e st = (false, st)) ∧
    (∀ (c : Channel (Session T) T) (st : Session T) (aid : Nat),
      st.completed = true → c.queue ≠ [] →
      __recv_or_notify c (notify_recv aid) st = (0, c, st)) ∧
    (∀ (c : Channel (Session T) T) (st : Session T) (aid : Nat) (sen : T),
      st.completed = true →
      ((__send_or_notify c (notify_send aid sen) st).2.1).queue = c.queue ∧
      (__send_or_notify c (notify_send aid sen) st).2.2 = st) := by
  refine ⟨?_, stepEvent_of_completed, ?_, ?_⟩
  · intro e es st h
    obtain ⟨h1, h2⟩ := stepEvent_of_not_completed e st h
    rw [runEvents, runEvents_of_completed es (stepEvent e st).2 h2]
    simp [h1]
  · intro c st aid hst hq
    obtain ⟨q, cl, rv, sd, wi, rl, sl, cap⟩ := c
    match q with
    | [] => exact absurd rfl hq
    | msg :: rest => simp [__recv_or_notify, notify_recv, hst]
  · intro c st aid sen hst
    by_cases hcl : c.is_closed_
    · simp [__send_or_notify, notify_send, hcl, hst]
    · by_cases hroom : c.queue.length < c.capacity_ + c.receivers_
      · simp [__send_or_notify, notify_send, hcl, hroom, hst]
      · simp [__send_or_notify, notify_send, hcl, hroom, hst]

/-- Claim C4 witness: three racing arrivals at a fresh session accept exactly
one; a rejected receive notifier on a channel buffering 4 leaves it unchanged;
a completed-session send notifier delivers nothing. -/
theorem select_single_winner_witness :
    (runEvents [SelEvent.recvEv 1 (5 : Nat) false, SelEvent.recvEv 2 6 false,
        SelEvent.sendEv 3 7 false]
      { completed := false, selected_action := none, dat := 0, closed_flag := false }).1
      = 1 ∧
    __recv_or_notify { channelNew (Session Nat) Nat with queue := [4] }
        (notify_recv 1)
        { completed := true, selected_action := some 2, dat := 0, closed_flag := false }
      = (0, { channelNew (Session Nat) Nat with queue := [4] },
          { completed := true, selected_action := some 2, dat := 0, closed_flag := false }) ∧
    ((__send_or_notify { channelNew (Session Nat) Nat with queue := [4] }
        (notify_send 3 9)
        { completed := true, selected_action := some 2, dat := 0, closed_flag := false }).2.1).queue
      = [4] := by
  refine ⟨?_, ?_, ?_⟩
  · exact (select_single_winner (T := Nat)).1 (SelEvent.recvEv 1 5 false)
      [SelEvent.recvEv 2 6 false, SelEvent.sendEv 3 7 false]
      { completed := false, selected_action := none, dat := 0, closed_flag := false } rfl
  · exact (select_single_winner (T := Nat)).2.2.1
      { channelNew (Session Nat) Nat with queue := [4] }
      { completed := true, selected_action := some 2, dat := 0, closed_flag := false }
      1 rfl (by simp [channelNew])
  · exact ((select_single_winner (T := Nat)).2.2.2
      { channelNew (Session Nat) Nat with queue := [4] }
      { completed := true, selected_action := some 2, dat := 0, closed_flag := false }
      3 9 rfl).1

/-- Claim C5 (code bug): `__recv_or_notify` on a closed channel with an empty
buffer, whose notifier rejects because its session already completed, executes
the rollback `push_front` anyway and fabricates a default-constructed element:
the buffer was empty before the call and holds `[0]` after it, so the buffer is
not restored identically. -/
theorem rollback_fabricates_value_on_closed_empty :
    (((__recv_or_notify { channelNew (Session Nat) Nat with is_closed_ := true }
        (notify_recv 1)
        { completed := true, selected_action := some 0, dat := 5,
          closed_flag := false }).2.1).queue = [0]) ∧
    ({ channelNew (Session Nat) Nat with is_closed_ := true }
        : Channel (Session Nat) Nat).queue = [] := by
  constructor <;> rfl

/-- The rollback on a non-empty buffer is correct: this lemma records the
complement of the bug above, used to delimit it. -/
theorem rollback_restores_nonempty_buffer {T : Type} [Inhabited T]
    (c : Channel (Session T) T) (st : Session T) (aid : Nat)
    (hst : st.completed = true) (hq : c.queue ≠ []) :
    ((__recv_or_notify c (notify_recv aid) st).2.1).queue = c.queue := by
  obtain ⟨q, cl, rv, sd, wi, rl, sl, cap⟩ := c
  match q with
  | [] => exact absurd rfl hq
  | msg :: rest => simp [__recv_or_notify, notify_recv, hst]

/-- Which action a select call with a default case ran: the recorded winning
action, no action (a completed session without a recorded action, unreachable
from these notifiers), or the default action. -/
inductive SelResult where
  | caseAction (aid : Nat)
  | noAction
  | defaultAction
deriving DecidableEq

/-- `select(case_receive(v, C), case_default(action))` on a single thread,
following `detail::select_inner<true>::select`: the receive case registers
through `__recv_or_notify` on a fresh session; if the session completed, the
recorded winning action runs (`wait_and_action`); otherwise the default action
runs; on scope exit the selector destructor removes its registration when it
received a nonzero wait id.  Returns which action ran, the final content of
the output slot, and the channel after the call. -/
def selectRecvDefault {T : Type} [Inhabited T] (c : Channel (Session T) T)
    (v0 : T) (raid : Nat) : SelResult × T × Channel (Session T) T :=
  let st0 : Session T :=
    { completed := false, selected_action := none, dat := v0, closed_flag := false }
  match __recv_or_notify c (notify_recv raid) st0 with
  | (id, c1, st1) =>
    let res :=
      if st1.completed then
        match st1.selected_action with
        | some a => SelResult.caseAction a
        | none => SelResult.noAction
      else SelResult.defaultAction
    let c2 := if id == 0 then c1 else (__unnotify c1 id).2
    (res, st1.dat, c2)

/-- Claim C6 counterexample: on a closed empty channel no value is ready, yet
the receive case wins (its notifier fires with the closed flag) and the
default action does not run. -/
theorem select_default_loses_on_closed_channel :
    (selectRecvDefault
        ({ channelNew (Session Nat) Nat with is_closed_ := true }
          : Channel (Session Nat) Nat) 5 1).1 = SelResult.caseAction 1 ∧
    ({ channelNew (Session Nat) Nat with is_closed_ := true }
        : Channel (Session Nat) Nat).queue = [] := by
  constructor <;> rfl

/-- Claim C6 (amended): in a single-threaded select over a receive case and a
default case, the default action runs iff the channel has no buffered value
and is not closed at registration time; when the buffer is non-empty the
receive case wins, the output slot receives the head value, the head is
consumed, and the default action does not run (when the channel is closed and
empty the receive case also wins, carrying the closed flag). -/
theorem select_recv_default_spec {T : Type} [Inhabited T]
    (c : Channel (Session T) T) (v0 : T) (raid : Nat) :
    ((selectRecvDefault c v0 raid).1 = SelResult.defaultAction ↔
      (c.queue = [] ∧ c.is_closed_ = false)) ∧
    (∀ x xs, c.queue = x :: xs →
      (selectRecvDefault c v0 raid).1 = SelResult.caseAction raid ∧
      (selectRecvDefault c v0 raid).2.1 = x ∧
      ((selectRecvDefault c v0 raid).2.2).queue = xs) := by
  obtain ⟨q, cl, rv, sd, wi, rl, sl, cap⟩ := c
  match q with
  | [] =>
    cases cl <;>
      simp [selectRecvDefault, __recv_or_notify, notify_recv]
  | msg :: rest =>
    constructor
    · simp [selectRecvDefault, __recv_or_notify, notify_recv]
    · intro x xs hx
      simp only at hx
      cases hx
      simp [selectRecvDefault, __recv_or_notify, notify_recv]

/-- Claim C6 witness: scenario S5, a channel buffering 2 against slot 1 —
the receive case wins with the slot set to 2 and the buffer drained. -/
theorem select_recv_default_spec_witness :
    (selectRecvDefault
        ({ channelNew (Session Nat) Nat with queue := [2] }
          : Channel (Session Nat) Nat) 1 0).1 = SelResult.caseAction 0 ∧
    (selectRecvDefault
        ({ channelNew (Session Nat) Nat with queue := [2] }
          : Channel (Session Nat) Nat) 1 0).2.1 = 2 ∧
    ((selectRecvDefault
        ({ channelNew (Session Nat) Nat with queue := [2] }
          : Channel (Session Nat) Nat) 1 0).2.2).queue = [] :=
  (select_recv_default_spec
    ({ channelNew (Session Nat) Nat with queue := [2] }
      : Channel (Session Nat) Nat) 1 0).2 2 [] rfl

end chan
